import Mathlib

/-!
Verification of the pysc2-replay-parser repository against its specification.

The development shallowly embeds the two source files:
  * transform_replays.py  (flag checking, ReplayParser: replay validity check,
    constructor size normalization, and the replay-stepping loop)
  * custom_features.py    (SpatialFeatures named tuple, SPATIAL_FEATURES,
    CustomFeatures.observation_spec / transform_obs,
    custom_features_from_game_info)

External pysc2 library values that the embedded code consults (enum lengths,
palettes, feature lists, the per-observation outcome of the library's
Features.transform_obs) are represented as explicit parameters, so every
theorem quantifies over them.  Python exceptions are modelled with Except.
-/

/-! ## transform_replays.py -/

/-- The ping response message; only its base_build field is consulted
(transform_replays.py line 184). -/
structure Ping where
  base_build : Nat
deriving DecidableEq

/-- The replay info message, with exactly the fields that
ReplayParser.check_valid_replay consults:  info.HasField('error') is the
Boolean has_error, and player_info is only measured by its length
(transform_replays.py lines 181-194). -/
structure ReplayInfo where
  has_error : Bool
  base_build : Nat
  game_duration_loops : Nat
  player_info : List Unit
deriving DecidableEq

/-- ReplayParser.check_valid_replay (transform_replays.py lines 178-194),
with FLAGS.min_game_length passed explicitly.  Note: the source returns
True on the base-build-mismatch branch (line 186) right after printing
a rejection message. -/
def ReplayParser.check_valid_replay (min_game_length : Nat)
    (info : ReplayInfo) (ping : Ping) : Bool :=
  if info.has_error then false
  else if info.base_build ≠ ping.base_build then true
  else if info.game_duration_loops < min_game_length then false
  else if info.player_info.length ≠ 2 then false
  else true

/-- check_flags (transform_replays.py lines 34-47).  The flags consulted are
replay_file, replay_dir, screen_size and minimap_size; the prints on the
non-raising branches are dropped.  The three raising branches of the source
(both replay flags set; neither set; unequal sizes, checked only after the
replay-flag block returns normally) become the three error cases, in source
order. -/
def check_flags (replay_file replay_dir : Option String)
    (screen_size minimap_size : Nat) : Except String Unit :=
  if replay_file.isSome && replay_dir.isSome then
    Except.error "Only one of replay_file and replay_dir must be specified."
  else if !replay_file.isSome && !replay_dir.isSome then
    Except.error "Both replay_file and replay_dir not specified."
  else if screen_size ≠ minimap_size then
    Except.error "Only supports equal values for screen_size and minimap_size."
  else Except.ok ()

/-- Whether an embedded Python call raised (any ValueError). -/
def raisesValueError (r : Except String Unit) : Bool :=
  match r with
  | Except.error _ => true
  | Except.ok _ => false

/-- A Python value passed as the screen_size / minimap_size argument of
ReplayParser.__init__: an int, a tuple (of any length), or a value of any
other type. -/
inductive PySize
  | int (n : Int)
  | tuple (xs : List Int)
  | other
deriving DecidableEq

/-- The exceptions ReplayParser.__init__ can raise in its configuration
section (lines 66-82): the bare ValueError of the else branches, and the
AssertionError of the two length asserts. -/
inductive InitError
  | valueError
  | assertionError
deriving DecidableEq

/-- The parser state right after the size asserts succeed.  process_started
records that control reached run_configs.get()/start() (line 84-85), which
is the first statement after the asserts; it is true on every non-raising
run and unreachable on a raising one. -/
structure InitState where
  screen_size : List Int
  minimap_size : List Int
  process_started : Bool
deriving DecidableEq

/-- The size-configuration block of ReplayParser.__init__ (lines 66-71 for
the screen, repeated verbatim at 74-79 for the minimap): a tuple is stored
unchanged, an int s is stored as (s, s), anything else raises ValueError. -/
def ReplayParser.configure_size : PySize → Except InitError (List Int)
  | PySize.tuple xs => Except.ok xs
  | PySize.int n => Except.ok [n, n]
  | PySize.other => Except.error InitError.valueError

/-- The prefix of ReplayParser.__init__ up to and including the two
length-2 asserts (transform_replays.py lines 56-85): normalize screen_size,
then minimap_size, then assert both lengths, then start the game process. -/
def ReplayParser.init_sizes (screen_size minimap_size : PySize) :
    Except InitError InitState :=
  match ReplayParser.configure_size screen_size with
  | Except.error e => Except.error e
  | Except.ok s =>
    match ReplayParser.configure_size minimap_size with
    | Except.error e => Except.error e
    | Except.ok m =>
      if s.length = 2 then
        if m.length = 2 then
          Except.ok { screen_size := s, minimap_size := m, process_started := true }
        else Except.error InitError.assertionError
      else Except.error InitError.assertionError

/-- environment.StepType, as used by ReplayParser (FIRST at line 143,
LAST at line 160, MID at line 176). -/
inductive StepType
  | FIRST
  | MID
  | LAST
deriving DecidableEq

/-- One response of controller.observe() in the loop of ReplayParser.start,
together with the outcome of the external library call
_features.transform_obs(obs) on it: some a when the transform returns the
agent observation a (observations abstracted as Nat), none when it raises.
player_result is whether obs.player_result is non-empty; actions is
obs.actions (abstracted as a list of Nat). -/
structure LoopObs where
  player_result : Bool
  transform_result : Option Nat
  actions : List Nat
deriving DecidableEq

/-- The data handed to agent.step on one loop iteration of
ReplayParser.start: the argument of the controller.step call that opened
the iteration, and the TimeStep fields (step_type, reward - constantly 0,
discount, observation) plus obs.actions (lines 167-171). -/
structure IterOut where
  stepped : Nat
  step_type : StepType
  reward : Int
  discount : Rat
  observation : Nat
  actions : List Nat
deriving DecidableEq

/-- How a run of the loop in ReplayParser.start ended: broke via the
player_result break (line 173-174); the observation script ran out (the
real loop would keep stepping); or the uncaught UnboundLocalError raised
at line 169 when agent_obs is referenced before any transform_obs call
has succeeded. -/
inductive LoopExit
  | broke
  | scriptEnded
  | unboundLocalError
deriving DecidableEq

/-- The while-True loop of ReplayParser.start (transform_replays.py lines
150-176), driven by the script of observations that controller.observe()
returns.  st is self._state, agent_obs is the Python local agent_obs
(none while still unbound).  Each iteration: step/observe (consume one
script entry), try transform_obs (a failure is caught and printed,
leaving agent_obs unchanged), choose step_type/discount from
obs.player_result, build the TimeStep - raising UnboundLocalError if
agent_obs was never assigned - call agent.step, and either break or set
self._state to MID. -/
def ReplayParser.runLoop (step_mul : Nat) (discount : Rat) (st : StepType)
    (agent_obs : Option Nat) : List LoopObs → List IterOut × LoopExit
  | [] => ([], LoopExit.scriptEnded)
  | o :: rest =>
    match (match o.transform_result with
           | some a => some a
           | none => agent_obs) with
    | none => ([], LoopExit.unboundLocalError)
    | some a =>
      if o.player_result then
        ([⟨step_mul, StepType.LAST, 0, 0, a, o.actions⟩], LoopExit.broke)
      else
        ((⟨step_mul, st, 0, discount, a, o.actions⟩ : IterOut) ::
            (ReplayParser.runLoop step_mul discount StepType.MID (some a) rest).1,
         (ReplayParser.runLoop step_mul discount StepType.MID (some a) rest).2)

/-- ReplayParser.start (lines 145-176): the loop entered with
self._state = StepType.FIRST (set at line 143) and agent_obs unbound. -/
def ReplayParser.start (step_mul : Nat) (discount : Rat)
    (script : List LoopObs) : List IterOut × LoopExit :=
  ReplayParser.runLoop step_mul discount StepType.FIRST none script

/-- Default LoopObs used with List.getD in theorem statements. -/
def loopObs0 : LoopObs := ⟨false, none, []⟩

/-- Default IterOut used with List.getD in theorem statements. -/
def iterOut0 : IterOut := ⟨0, StepType.FIRST, 0, 0, 0, []⟩

/-- posixpath.join for two components, as called by main
(transform_replays.py line 222): if the second component is absolute it
replaces the first; otherwise they are concatenated with a separator
inserted unless the first is empty or already ends in one. -/
def os_path_join (a b : String) : String :=
  if b.data.head? = some '/' then b
  else if a.data = [] || a.data.getLast? = some '/' then a ++ b
  else a ++ "/" ++ b

/-- The glob pattern that main passes to glob.glob in the replay_dir
branch (transform_replays.py line 222). -/
def main_replay_glob_pattern (replay_dir : String) : String :=
  os_path_join replay_dir "/**/*.SC2Replay"

/-! ## custom_features.py -/

/-- pysc2.lib.features.FeatureType (the two members used at
custom_features.py lines 47-54). -/
inductive FeatureType
  | SCALAR
  | CATEGORICAL
deriving DecidableEq

/-- pysc2.lib.features.Feature, restricted to the keyword arguments that
SpatialFeatures.__new__ supplies (custom_features.py lines 32-41).  A
palette is a list of RGB triples, abstracted as a list of lists of Nat. -/
structure Feature where
  index : Nat
  name : String
  layer_set : String
  full_name : String
  scale : Nat
  type : FeatureType
  palette : List (List Nat)
  clip : Bool
deriving DecidableEq

/-- The palette component of a SpatialFeatures keyword argument: either a
callable (a palette function of the scale, like features.colors.winter) or
an already-built palette array. -/
inductive PaletteArg
  | callable (f : Nat → List (List Nat))
  | static (p : List (List Nat))

/-- The (scale, type_, palette) triple destructured by the loop of
SpatialFeatures.__new__ (custom_features.py line 31). -/
structure LayerSpec where
  scale : Nat
  type : FeatureType
  palette : PaletteArg

/-- SpatialFeatures._fields: the field names of the named tuple declared
at custom_features.py lines 20-22, in declaration order. -/
def SpatialFeatures.fields : List String :=
  ["height_map", "visibility_map", "creep", "camera",
   "player_id", "player_relative", "selected", "unit_type"]

/-- Modelled from the spec: the field names of pysc2.lib.features
.MinimapFeatures, the library named tuple that (per the spec and the
docstring at custom_features.py line 25) SpatialFeatures mirrors with the
single extra field unit_type.  The library source is not part of this
repository. -/
def MinimapFeatures.fields : List String :=
  ["height_map", "visibility_map", "creep", "camera",
   "player_id", "player_relative", "selected"]

/-- The source's `palette(scale) if callable(palette) else palette`
(custom_features.py line 39). -/
def resolve_palette : PaletteArg → Nat → List (List Nat)
  | PaletteArg.callable f, scale => f scale
  | PaletteArg.static p, _ => p

/-- The body of the loop in SpatialFeatures.__new__ (custom_features.py
lines 31-41): the Feature built for one keyword argument.  The source's
SpatialFeatures._fields.index(name) becomes List.indexOf on the field
list (list.index raises ValueError for a name that is not a field, in
which case the namedtuple constructor would itself have failed; the call
site passes exactly the eight field names). -/
def SpatialFeatures.mkFeature (entry : String × LayerSpec) : Feature :=
  { index := SpatialFeatures.fields.indexOf entry.1
    name := entry.1
    layer_set := "minimap_renders"
    full_name := "spatial " ++ entry.1
    scale := entry.2.scale
    type := entry.2.type
    palette := resolve_palette entry.2.palette entry.2.scale
    clip := false }

/-- SpatialFeatures.__new__ (custom_features.py lines 29-43): build one
Feature per keyword argument.  The final super().__new__(cls, **feats)
arranges the entries in field order and requires exactly the eight
fields; the one call site in the repository passes all eight in field
order, for which that arrangement is the identity, so the map keeps the
argument order. -/
def SpatialFeatures.new (kwargs : List (String × LayerSpec)) : List Feature :=
  kwargs.map SpatialFeatures.mkFeature

/-- The values this repository reads from the external pysc2 library
(pysc2.lib.features enum lengths and feature lists, pysc2.lib.features
.colors palettes, pysc2.lib.static_data.UNIT_TYPES).  They are opaque to
the repository; every theorem quantifies over them. -/
structure Pysc2 where
  UnitLayer_len : Nat
  Player_len : Nat
  ScoreCumulative_len : Nat
  ScoreByCategory_len : Nat
  ScoreCategories_len : Nat
  ScoreByVital_len : Nat
  ScoreVitals_len : Nat
  FeatureUnit_len : Nat
  UnitCounts_len : Nat
  SCREEN_FEATURES : List Feature
  MINIMAP_FEATURES : List Feature
  winter : Nat → List (List Nat)
  VISIBILITY_PALETTE : List (List Nat)
  CREEP_PALETTE : List (List Nat)
  CAMERA_PALETTE : List (List Nat)
  PLAYER_ABSOLUTE_PALETTE : List (List Nat)
  PLAYER_RELATIVE_PALETTE : List (List Nat)
  unit_type_color : Nat → List (List Nat)
  UNIT_TYPES : List Nat

/-- SPATIAL_FEATURES (custom_features.py lines 46-55).  colors.winter and
colors.unit_type are palette functions of the scale (so callable);
the five *_PALETTE values are arrays.  The unit_type scale is
max(static_data.UNIT_TYPES) + 1. -/
def SPATIAL_FEATURES (lib : Pysc2) : List Feature :=
  SpatialFeatures.new [
    ("height_map", ⟨256, FeatureType.SCALAR, PaletteArg.callable lib.winter⟩),
    ("visibility_map", ⟨4, FeatureType.CATEGORICAL, PaletteArg.static lib.VISIBILITY_PALETTE⟩),
    ("creep", ⟨2, FeatureType.CATEGORICAL, PaletteArg.static lib.CREEP_PALETTE⟩),
    ("camera", ⟨2, FeatureType.CATEGORICAL, PaletteArg.static lib.CAMERA_PALETTE⟩),
    ("player_id", ⟨17, FeatureType.CATEGORICAL, PaletteArg.static lib.PLAYER_ABSOLUTE_PALETTE⟩),
    ("player_relative", ⟨5, FeatureType.CATEGORICAL, PaletteArg.static lib.PLAYER_RELATIVE_PALETTE⟩),
    ("selected", ⟨2, FeatureType.CATEGORICAL, PaletteArg.callable lib.winter⟩),
    ("unit_type", ⟨lib.UNIT_TYPES.foldr max 0 + 1, FeatureType.CATEGORICAL,
        PaletteArg.callable lib.unit_type_color⟩)]

/-- A point.Point / resolution (x, y). -/
structure Point where
  x : Nat
  y : Nat
deriving DecidableEq

/-- pysc2.lib.features.Dimensions: screen and minimap resolutions. -/
structure Dimensions where
  screen : Point
  minimap : Point
deriving DecidableEq

/-- pysc2.lib.features.AgentInterfaceFormat, restricted to the fields the
embedded code reads or sets (custom_features.py lines 66-68, 93-124,
148-164, 218-228). -/
structure AgentInterfaceFormat where
  feature_dimensions : Option Dimensions
  rgb_dimensions : Option Dimensions
  use_feature_units : Bool
  use_raw_units : Bool
  use_unit_counts : Bool
  use_camera_position : Bool
  camera_width_world_units : Nat
  action_space : Bool
  hide_specific_actions : Bool
deriving DecidableEq

/-- The exception raised by the unimplemented branches of
custom_features.py. -/
inductive PyError
  | notImplementedError
deriving DecidableEq

/-- The body of CustomFeatures.__init__ after the inherited
features.Features.__init__ returns (custom_features.py lines 63-69;
the superclass call is external library code, modelled as returning
normally): the feature_dimensions branch does nothing, and an agent
interface format with rgb_dimensions set raises NotImplementedError. -/
def CustomFeatures.init_check (aif : AgentInterfaceFormat) :
    Except PyError Unit :=
  if aif.rgb_dimensions.isSome then Except.error PyError.notImplementedError
  else Except.ok ()

/-- CustomFeatures.observation_spec (custom_features.py lines 71-126).
The spec dict maps each name to its shape; lengths of library enums come
from the Pysc2 parameter.  The rgb_dimensions branch (line 111-112)
raises NotImplementedError; the remaining optional entries are appended
in source order. -/
def CustomFeatures.observation_spec (lib : Pysc2)
    (aif : AgentInterfaceFormat) : Except PyError (List (String × List Nat)) :=
  let obs_spec : List (String × List Nat) := [
    ("action_result", [0]),
    ("alerts", [0]),
    ("available_actions", [0]),
    ("build_queue", [0, lib.UnitLayer_len]),
    ("cargo", [0, lib.UnitLayer_len]),
    ("cargo_slots_available", [1]),
    ("control_groups", [10, 2]),
    ("game_loop", [1]),
    ("last_actions", [0]),
    ("multi_select", [0, lib.UnitLayer_len]),
    ("player", [lib.Player_len]),
    ("score_cumulative", [lib.ScoreCumulative_len]),
    ("score_by_category", [lib.ScoreByCategory_len, lib.ScoreCategories_len]),
    ("score_by_vital", [lib.ScoreByVital_len, lib.ScoreVitals_len]),
    ("single_select", [0, lib.UnitLayer_len])]
  let obs_spec :=
    match aif.feature_dimensions with
    | some dims => obs_spec ++ [
        ("feature_screen", [lib.SCREEN_FEATURES.length, dims.screen.y, dims.screen.x]),
        ("feature_minimap", [lib.MINIMAP_FEATURES.length, dims.minimap.y, dims.minimap.x]),
        ("feature_spatial", [(SPATIAL_FEATURES lib).length, dims.minimap.y, dims.minimap.x])]
    | none => obs_spec
  if aif.rgb_dimensions.isSome then Except.error PyError.notImplementedError
  else
    let obs_spec := if aif.use_feature_units then
        obs_spec ++ [("feature_units", [0, lib.FeatureUnit_len])] else obs_spec
    let obs_spec := if aif.use_raw_units then
        obs_spec ++ [("raw_units", [0, lib.FeatureUnit_len])] else obs_spec
    let obs_spec := if aif.use_unit_counts then
        obs_spec ++ [("unit_counts", [0, lib.UnitCounts_len])] else obs_spec
    let obs_spec := if aif.use_camera_position then
        obs_spec ++ [("camera_position", [2])] else obs_spec
    Except.ok obs_spec

/-- An SC2 observation proto as consumed by CustomFeatures.transform_obs:
the only uses of obs.observation are the external library calls
f.unpack(obs.observation) (which yield a 2-D layer or Python None,
modelled as an Option), plus reads of score.score_details and
player_common whose results are never used (lines 172, 181). -/
structure RawObs where
  unpack : Feature → Option (List (List Int))

/-- A value of the output NamedDict of CustomFeatures.transform_obs:
Python None, a 1-D int array, a 2-D int array, or a stacked list of
2-D layers. -/
inductive OutVal
  | pyNone
  | arr1 (xs : List Int)
  | arr2 (xs : List (List Int))
  | stack (layers : List (List (List Int)))
deriving DecidableEq

/-- The local helper or_zeros of CustomFeatures.transform_obs
(custom_features.py lines 142-146): a present layer is used as-is (the
astype is the identity in this integer model), a missing one becomes a
size.y by size.x zero array. -/
def or_zeros (layer : Option (List (List Int))) (size : Point) :
    List (List Int) :=
  match layer with
  | some l => l
  | none => List.replicate size.y (List.replicate size.x 0)

/-- CustomFeatures.transform_obs (custom_features.py lines 128-184),
returning the output dict as an association list in insertion order.
The base entries (lines 131-140) come first; with feature_dimensions set,
feature_screen / feature_minimap / feature_spatial are stacked from the
unpacked layers (lines 150-162); an rgb_dimensions setting raises
NotImplementedError (lines 164-165); finally the eight FIXME entries are
set to Python None (lines 167-182; score_details and player_common are
read there but never used, and the local get_score_details function is
defined but never called). -/
def CustomFeatures.transform_obs (lib : Pysc2) (aif : AgentInterfaceFormat)
    (obs : RawObs) : Except PyError (List (String × OutVal)) :=
  let empty : OutVal := OutVal.arr2 []
  let out0 : List (String × OutVal) := [
    ("single_select", empty),
    ("multi_select", empty),
    ("build_queue", empty),
    ("cargo", empty),
    ("cargo_slots_available", OutVal.arr1 [0])]
  let out1 : List (String × OutVal) :=
    match aif.feature_dimensions with
    | some dims => out0 ++ [
        ("feature_screen", OutVal.stack
          (lib.SCREEN_FEATURES.map (fun f => or_zeros (obs.unpack f) dims.screen))),
        ("feature_minimap", OutVal.stack
          (lib.MINIMAP_FEATURES.map (fun f => or_zeros (obs.unpack f) dims.minimap))),
        ("feature_spatial", OutVal.stack
          ((SPATIAL_FEATURES lib).map (fun f => or_zeros (obs.unpack f) dims.minimap)))]
    | none => out0
  if aif.rgb_dimensions.isSome then Except.error PyError.notImplementedError
  else
    Except.ok (out1 ++ [
      ("last_actions", OutVal.pyNone),
      ("action_result", OutVal.pyNone),
      ("alerts", OutVal.pyNone),
      ("game_loop", OutVal.pyNone),
      ("score_cumulative", OutVal.pyNone),
      ("score_by_category", OutVal.pyNone),
      ("score_by_vital", OutVal.pyNone),
      ("player", OutVal.pyNone)])

/-- The feature_layer submessage of the interface options in a game info
proto: resolution, minimap_resolution and width, as read at
custom_features.py lines 201-204 and 215. -/
structure FeatureLayerOpts where
  resolution : Point
  minimap_resolution : Point
  width : Nat
deriving DecidableEq

/-- game_info.options: HasField('feature_layer') and HasField('render')
become Options.  The render payload is never inspected (the branch
raises), so it is Unit. -/
structure InterfaceOpts where
  feature_layer : Option FeatureLayerOpts
  render : Option Unit
deriving DecidableEq

/-- The game info proto as consumed by custom_features_from_game_info:
its options and start_raw.map_size. -/
structure GameInfo where
  options : InterfaceOpts
  map_size : Point
deriving DecidableEq

/-- custom_features_from_game_info (custom_features.py lines 187-230):
build feature dimensions from the feature_layer options when present;
raise NotImplementedError when options has the render field; read the
camera width from options.feature_layer (a proto read that yields the
default 0 when the field is unset); then construct the CustomFeatures
object, whose constructor check runs on the assembled agent interface
format.  The result is that format together with the map size. -/
def custom_features_from_game_info (gi : GameInfo)
    (use_feature_units use_raw_units action_space hide_specific_actions
     use_unit_counts use_camera_position : Bool) :
    Except PyError (AgentInterfaceFormat × Point) :=
  let feature_dimensions : Option Dimensions :=
    match gi.options.feature_layer with
    | some fl => some ⟨⟨fl.resolution.x, fl.resolution.y⟩,
        ⟨fl.minimap_resolution.x, fl.minimap_resolution.y⟩⟩
    | none => none
  if gi.options.render.isSome then Except.error PyError.notImplementedError
  else
    let camera_width := (gi.options.feature_layer.map FeatureLayerOpts.width).getD 0
    let aif : AgentInterfaceFormat := {
      feature_dimensions := feature_dimensions
      rgb_dimensions := none
      use_feature_units := use_feature_units
      use_raw_units := use_raw_units
      use_unit_counts := use_unit_counts
      use_camera_position := use_camera_position
      camera_width_world_units := camera_width
      action_space := action_space
      hide_specific_actions := hide_specific_actions }
    match CustomFeatures.init_check aif with
    | Except.error e => Except.error e
    | Except.ok _ => Except.ok (aif, gi.map_size)

/-- A sample pysc2 library environment, used only as a concrete input in
witness theorems. -/
def pysc2SampleLib : Pysc2 :=
  { UnitLayer_len := 7, Player_len := 11, ScoreCumulative_len := 13,
    ScoreByCategory_len := 11, ScoreCategories_len := 5,
    ScoreByVital_len := 3, ScoreVitals_len := 3, FeatureUnit_len := 28,
    UnitCounts_len := 2, SCREEN_FEATURES := [], MINIMAP_FEATURES := [],
    winter := fun _ => [], VISIBILITY_PALETTE := [], CREEP_PALETTE := [],
    CAMERA_PALETTE := [], PLAYER_ABSOLUTE_PALETTE := [],
    PLAYER_RELATIVE_PALETTE := [], unit_type_color := fun _ => [],
    UNIT_TYPES := [] }

/-- The concrete output of CustomFeatures.transform_obs for an agent
interface format with neither feature nor rgb dimensions; used in the
witness for the placeholder-output theorem. -/
def sampleTransformOut : List (String × OutVal) := [
  ("single_select", OutVal.arr2 []),
  ("multi_select", OutVal.arr2 []),
  ("build_queue", OutVal.arr2 []),
  ("cargo", OutVal.arr2 []),
  ("cargo_slots_available", OutVal.arr1 [0]),
  ("last_actions", OutVal.pyNone),
  ("action_result", OutVal.pyNone),
  ("alerts", OutVal.pyNone),
  ("game_loop", OutVal.pyNone),
  ("score_cumulative", OutVal.pyNone),
  ("score_by_category", OutVal.pyNone),
  ("score_by_vital", OutVal.pyNone),
  ("player", OutVal.pyNone)]

/-! ## Theorems -/

/-- C1: the claim states that check_valid_replay returns False when the
info's base_build differs from the ping's base_build.  The code instead
prints a rejection message and returns True on that branch
(transform_replays.py line 186): evaluated at an info with no error, a
long enough game and two players but a base_build different from the
ping's, the function accepts the replay. -/
theorem check_valid_replay_build_mismatch_returns_true :
    ReplayParser.check_valid_replay 3000 ⟨false, 100, 10000, [(), ()]⟩ ⟨200⟩ = true := rfl

/-- C2 counterexample: with a transform_obs failure on the first loop
iteration there is no previously assigned agent_obs, so building the
TimeStep at line 169 raises an uncaught UnboundLocalError: no TimeStep is
constructed, agent.step is never called, and the loop does not continue -
refuting the claim that the catch-and-continue behaviour holds in
particular on the first iteration. -/
theorem start_first_iteration_transform_failure_crashes :
    ReplayParser.start 4 1 [⟨false, none, []⟩] = ([], LoopExit.unboundLocalError) := rfl

/-- C2 amended: when transform_obs raises on an iteration and some earlier
iteration's transform succeeded (agent_obs holds a stale observation a),
the exception is caught, a TimeStep carrying the stale observation is
still built and handed to agent.step, and the loop continues on the
remaining script with agent_obs unchanged. -/
theorem transform_failure_uses_stale_observation (sm : Nat) (d : Rat)
    (st : StepType) (a : Nat) (o : LoopObs) (rest : List LoopObs)
    (hfail : o.transform_result = none) (hnr : o.player_result = false) :
    ReplayParser.runLoop sm d st (some a) (o :: rest) =
      ((⟨sm, st, 0, d, a, o.actions⟩ : IterOut) ::
          (ReplayParser.runLoop sm d StepType.MID (some a) rest).1,
       (ReplayParser.runLoop sm d StepType.MID (some a) rest).2) := by
  simp [ReplayParser.runLoop, hfail, hnr]

/-- Witness for the amended C2 theorem at a concrete failing observation
following a successful one. -/
theorem transform_failure_uses_stale_observation_witness :
    (⟨false, none, [3]⟩ : LoopObs).transform_result = none
    ∧ (⟨false, none, [3]⟩ : LoopObs).player_result = false
    ∧ ReplayParser.runLoop 4 1 StepType.MID (some 9) [⟨false, none, [3]⟩] =
        ((⟨4, StepType.MID, 0, 1, 9, [3]⟩ : IterOut) ::
            (ReplayParser.runLoop 4 1 StepType.MID (some 9) []).1,
         (ReplayParser.runLoop 4 1 StepType.MID (some 9) []).2) :=
  ⟨rfl, rfl,
   transform_failure_uses_stale_observation 4 1 StepType.MID 9 ⟨false, none, [3]⟩ [] rfl rfl⟩

/-- C7: SPATIAL_FEATURES has exactly the eight fields height_map,
visibility_map, creep, camera, player_id, player_relative, selected,
unit_type in that order, its field list is the MinimapFeatures field list
with the single extra field unit_type appended, and its length is the
MinimapFeatures field count plus one (8 = 7 + 1), for every choice of the
external palette library. -/
theorem spatial_features_mirror_minimap (lib : Pysc2) :
    (SPATIAL_FEATURES lib).map Feature.name =
        ["height_map", "visibility_map", "creep", "camera",
         "player_id", "player_relative", "selected", "unit_type"]
    ∧ (SPATIAL_FEATURES lib).map Feature.name = SpatialFeatures.fields
    ∧ (SPATIAL_FEATURES lib).length = 8
    ∧ SpatialFeatures.fields = MinimapFeatures.fields ++ ["unit_type"]
    ∧ (SPATIAL_FEATURES lib).length = MinimapFeatures.fields.length + 1 :=
  ⟨rfl, rfl, rfl, rfl, rfl⟩

/-- C8: the glob pattern main builds from the replay_dir flag is
os.path.join(replay_dir, '/**/*.SC2Replay'), and because the second
component is absolute, posix os.path.join discards replay_dir: the
pattern is the constant '/**/*.SC2Replay' whatever the flag's value, so
the set of files glob searches does not depend on replay_dir. -/
theorem main_glob_pattern_independent_of_replay_dir (replay_dir : String) :
    main_replay_glob_pattern replay_dir = "/**/*.SC2Replay" := by
  have h : ("/**/*.SC2Replay").data.head? = some '/' := by decide
  simp [main_replay_glob_pattern, os_path_join, h]

/-- C3: every unsupported RGB-rendering configuration raises
NotImplementedError: the CustomFeatures constructor check, its
observation_spec and its transform_obs whenever the agent interface
format has rgb_dimensions set, and custom_features_from_game_info
whenever the game info options carry the render field. -/
theorem rgb_configurations_raise_not_implemented (lib : Pysc2)
    (aif : AgentInterfaceFormat) (obs : RawObs) (gi : GameInfo)
    (b1 b2 b3 b4 b5 b6 : Bool)
    (hrgb : aif.rgb_dimensions.isSome = true)
    (hrender : gi.options.render.isSome = true) :
    CustomFeatures.init_check aif = Except.error PyError.notImplementedError
    ∧ CustomFeatures.observation_spec lib aif = Except.error PyError.notImplementedError
    ∧ CustomFeatures.transform_obs lib aif obs = Except.error PyError.notImplementedError
    ∧ custom_features_from_game_info gi b1 b2 b3 b4 b5 b6 =
        Except.error PyError.notImplementedError := by
  refine ⟨?_, ?_, ?_, ?_⟩
  · simp [CustomFeatures.init_check, hrgb]
  · cases hd : aif.feature_dimensions <;>
      simp [CustomFeatures.observation_spec, hrgb, hd]
  · cases hd : aif.feature_dimensions <;>
      simp [CustomFeatures.transform_obs, hrgb, hd]
  · simp [custom_features_from_game_info, hrender]

/-- Witness for the RGB-configuration theorem at a concrete interface
format with rgb_dimensions set and a game info with the render field. -/
theorem rgb_configurations_raise_not_implemented_witness :
    ((⟨none, some ⟨⟨1, 1⟩, ⟨1, 1⟩⟩, false, false, false, false, 0, false, true⟩ :
        AgentInterfaceFormat).rgb_dimensions.isSome = true)
    ∧ ((⟨⟨none, some ()⟩, ⟨0, 0⟩⟩ : GameInfo).options.render.isSome = true)
    ∧ (CustomFeatures.init_check
          ⟨none, some ⟨⟨1, 1⟩, ⟨1, 1⟩⟩, false, false, false, false, 0, false, true⟩ =
        Except.error PyError.notImplementedError
      ∧ CustomFeatures.observation_spec pysc2SampleLib
          ⟨none, some ⟨⟨1, 1⟩, ⟨1, 1⟩⟩, false, false, false, false, 0, false, true⟩ =
        Except.error PyError.notImplementedError
      ∧ CustomFeatures.transform_obs pysc2SampleLib
          ⟨none, some ⟨⟨1, 1⟩, ⟨1, 1⟩⟩, false, false, false, false, 0, false, true⟩
          ⟨fun _ => none⟩ =
        Except.error PyError.notImplementedError
      ∧ custom_features_from_game_info ⟨⟨none, some ()⟩, ⟨0, 0⟩⟩
          false false false false false false =
        Except.error PyError.notImplementedError) :=
  ⟨rfl, rfl,
   rgb_configurations_raise_not_implemented pysc2SampleLib
     ⟨none, some ⟨⟨1, 1⟩, ⟨1, 1⟩⟩, false, false, false, false, 0, false, true⟩
     ⟨fun _ => none⟩ ⟨⟨none, some ()⟩, ⟨0, 0⟩⟩
     false false false false false false rfl rfl⟩

/-- C4: whenever CustomFeatures.transform_obs returns an output dict, the
keys last_actions, action_result, alerts, game_loop, score_cumulative,
score_by_category, score_by_vital and player are all mapped to the
Python-None placeholder. -/
theorem transform_obs_placeholder_none_outputs (lib : Pysc2)
    (aif : AgentInterfaceFormat) (obs : RawObs)
    (out : List (String × OutVal))
    (h : CustomFeatures.transform_obs lib aif obs = Except.ok out) :
    out.lookup "last_actions" = some OutVal.pyNone
    ∧ out.lookup "action_result" = some OutVal.pyNone
    ∧ out.lookup "alerts" = some OutVal.pyNone
    ∧ out.lookup "game_loop" = some OutVal.pyNone
    ∧ out.lookup "score_cumulative" = some OutVal.pyNone
    ∧ out.lookup "score_by_category" = some OutVal.pyNone
    ∧ out.lookup "score_by_vital" = some OutVal.pyNone
    ∧ out.lookup "player" = some OutVal.pyNone := by
  cases hr : aif.rgb_dimensions with
  | some dgb => simp [CustomFeatures.transform_obs, hr] at h
  | none =>
    cases hd : aif.feature_dimensions with
    | some dims =>
      simp only [CustomFeatures.transform_obs, hr, hd, Option.isSome_none,
        Bool.false_eq_true, if_false, Except.ok.injEq] at h
      subst h
      exact ⟨rfl, rfl, rfl, rfl, rfl, rfl, rfl, rfl⟩
    | none =>
      simp only [CustomFeatures.transform_obs, hr, hd, Option.isSome_none,
        Bool.false_eq_true, if_false, Except.ok.injEq] at h
      subst h
      exact ⟨rfl, rfl, rfl, rfl, rfl, rfl, rfl, rfl⟩

/-- Witness for the placeholder theorem on a concrete observation with no
feature and no rgb dimensions. -/
theorem transform_obs_placeholder_none_outputs_witness :
    CustomFeatures.transform_obs pysc2SampleLib
        ⟨none, none, false, false, false, false, 0, false, true⟩
        ⟨fun _ => none⟩ = Except.ok sampleTransformOut
    ∧ (sampleTransformOut.lookup "last_actions" = some OutVal.pyNone
      ∧ sampleTransformOut.lookup "action_result" = some OutVal.pyNone
      ∧ sampleTransformOut.lookup "alerts" = some OutVal.pyNone
      ∧ sampleTransformOut.lookup "game_loop" = some OutVal.pyNone
      ∧ sampleTransformOut.lookup "score_cumulative" = some OutVal.pyNone
      ∧ sampleTransformOut.lookup "score_by_category" = some OutVal.pyNone
      ∧ sampleTransformOut.lookup "score_by_vital" = some OutVal.pyNone
      ∧ sampleTransformOut.lookup "player" = some OutVal.pyNone) :=
  ⟨rfl,
   transform_obs_placeholder_none_outputs pysc2SampleLib
     ⟨none, none, false, false, false, false, 0, false, true⟩
     ⟨fun _ => none⟩ sampleTransformOut rfl⟩

/-- C6: check_flags raises ValueError exactly for the insane
configurations: both replay_file and replay_dir set, neither set, or
screen_size different from minimap_size; equivalently it returns
normally exactly when one replay flag is set and the sizes agree. -/
theorem check_flags_value_error_iff (replay_file replay_dir : Option String)
    (screen_size minimap_size : Nat) :
    raisesValueError (check_flags replay_file replay_dir screen_size minimap_size) = true ↔
      ((replay_file.isSome = true ∧ replay_dir.isSome = true)
        ∨ (replay_file = none ∧ replay_dir = none)
        ∨ screen_size ≠ minimap_size) := by
  cases replay_file <;> cases replay_dir <;>
    by_cases hs : screen_size = minimap_size <;>
      simp [check_flags, raisesValueError, hs]

/-- Characterization of the non-raising runs of the embedded
ReplayParser.__init__ prefix: it returns a state exactly when both size
arguments normalize and both normalized sizes pass the length-2 asserts,
and the returned state stores those normalized sizes with the game
process started. -/
theorem init_sizes_ok_iff (s m : PySize) (st : InitState) :
    ReplayParser.init_sizes s m = Except.ok st ↔
      ∃ ss ms, ReplayParser.configure_size s = Except.ok ss
        ∧ ReplayParser.configure_size m = Except.ok ms
        ∧ ss.length = 2 ∧ ms.length = 2
        ∧ st = ⟨ss, ms, true⟩ := by
  cases hs : ReplayParser.configure_size s with
  | error e => simp [ReplayParser.init_sizes, hs]
  | ok ss =>
    cases hm : ReplayParser.configure_size m with
    | error e => simp [ReplayParser.init_sizes, hs, hm]
    | ok ms =>
      by_cases h1 : ss.length = 2 <;> by_cases h2 : ms.length = 2 <;>
        simp [ReplayParser.init_sizes, hs, hm, h1, h2, eq_comm]

/-- C9: ReplayParser.__init__ normalizes its size arguments.  A size given
as PySize.other (neither tuple nor int) raises ValueError - in whichever
of the two positions it appears - before the game process is started; an
int n is stored as the pair [n, n]; a tuple is stored unchanged; a tuple
whose length is not 2 fails one of the length-2 asserts (AssertionError),
provided the other argument did not already raise ValueError first; and on
every normal return both stored sizes have length 2 and only then is the
game process started. -/
theorem init_sizes_normalization (s m : PySize) (n : Int) (xs : List Int) :
    (ReplayParser.init_sizes PySize.other m = Except.error InitError.valueError)
    ∧ (ReplayParser.init_sizes s PySize.other = Except.error InitError.valueError)
    ∧ (∀ st, ReplayParser.init_sizes (PySize.int n) m = Except.ok st →
        st.screen_size = [n, n])
    ∧ (∀ st, ReplayParser.init_sizes s (PySize.int n) = Except.ok st →
        st.minimap_size = [n, n])
    ∧ (∀ st, ReplayParser.init_sizes (PySize.tuple xs) m = Except.ok st →
        st.screen_size = xs)
    ∧ (∀ st, ReplayParser.init_sizes s (PySize.tuple xs) = Except.ok st →
        st.minimap_size = xs)
    ∧ (xs.length ≠ 2 → m ≠ PySize.other →
        ReplayParser.init_sizes (PySize.tuple xs) m = Except.error InitError.assertionError)
    ∧ (xs.length ≠ 2 → s ≠ PySize.other →
        ReplayParser.init_sizes s (PySize.tuple xs) = Except.error InitError.assertionError)
    ∧ (∀ st, ReplayParser.init_sizes s m = Except.ok st →
        st.screen_size.length = 2 ∧ st.minimap_size.length = 2
          ∧ st.process_started = true) := by
  refine ⟨rfl, ?_, ?_, ?_, ?_, ?_, ?_, ?_, ?_⟩
  · cases s <;> rfl
  · intro st h
    obtain ⟨ss, ms, hss, hms, h1, h2, hst⟩ := (init_sizes_ok_iff _ _ _).mp h
    simp [ReplayParser.configure_size] at hss
    subst hss; subst hst; rfl
  · intro st h
    obtain ⟨ss, ms, hss, hms, h1, h2, hst⟩ := (init_sizes_ok_iff _ _ _).mp h
    simp [ReplayParser.configure_size] at hms
    subst hms; subst hst; rfl
  · intro st h
    obtain ⟨ss, ms, hss, hms, h1, h2, hst⟩ := (init_sizes_ok_iff _ _ _).mp h
    simp [ReplayParser.configure_size] at hss
    subst hss; subst hst; rfl
  · intro st h
    obtain ⟨ss, ms, hss, hms, h1, h2, hst⟩ := (init_sizes_ok_iff _ _ _).mp h
    simp [ReplayParser.configure_size] at hms
    subst hms; subst hst; rfl
  · intro hlen hm
    cases m with
    | other => exact absurd rfl hm
    | int k =>
        simp [ReplayParser.init_sizes, ReplayParser.configure_size, hlen]
    | tuple ys =>
        simp [ReplayParser.init_sizes, ReplayParser.configure_size, hlen]
  · intro hlen hs
    cases s with
    | other => exact absurd rfl hs
    | int k =>
        simp [ReplayParser.init_sizes, ReplayParser.configure_size, hlen]
    | tuple ys =>
        by_cases hy : ys.length = 2 <;>
          simp [ReplayParser.init_sizes, ReplayParser.configure_size, hlen, hy]
  · intro st h
    obtain ⟨ss, ms, hss, hms, h1, h2, hst⟩ := (init_sizes_ok_iff _ _ _).mp h
    subst hst
    exact ⟨h1, h2, rfl⟩

/-- Witness for the size-normalization theorem: a length-3 tuple fails the
assert, a non-size value raises ValueError, and an int is stored
doubled. -/
theorem init_sizes_normalization_witness :
    ([1, 2, 3] : List Int).length ≠ 2
    ∧ PySize.int 64 ≠ PySize.other
    ∧ ReplayParser.init_sizes (PySize.tuple [1, 2, 3]) (PySize.int 64) =
        Except.error InitError.assertionError
    ∧ ReplayParser.init_sizes PySize.other (PySize.int 64) =
        Except.error InitError.valueError
    ∧ (⟨[32, 32], [5, 6], true⟩ : InitState).screen_size = [32, 32] :=
  ⟨by decide, by decide,
   (init_sizes_normalization (PySize.int 64) (PySize.int 64) 64
       [1, 2, 3]).2.2.2.2.2.2.1 (by decide) (by decide),
   (init_sizes_normalization (PySize.int 64) (PySize.int 64) 64 [1, 2, 3]).1,
   (init_sizes_normalization (PySize.int 32) (PySize.tuple [5, 6]) 32
       [5, 6]).2.2.1 ⟨[32, 32], [5, 6], true⟩ rfl⟩

/-- C10: every Feature produced by SpatialFeatures.__new__ satisfies the
construction invariant: layer_set is minimap_renders, full_name is
"spatial " followed by the name, clip is False, the index is the position
of the name in SpatialFeatures._fields, and the feature comes from some
keyword argument whose keyword is its name and whose scale and type it
carries, with the palette being palette(scale) when the supplied palette
is callable and the supplied palette itself otherwise. -/
theorem spatial_features_new_invariant (kwargs : List (String × LayerSpec))
    (f : Feature) (hf : f ∈ SpatialFeatures.new kwargs) :
    f.layer_set = "minimap_renders"
    ∧ f.full_name = "spatial " ++ f.name
    ∧ f.clip = false
    ∧ f.index = SpatialFeatures.fields.indexOf f.name
    ∧ ∃ entry ∈ kwargs, entry.1 = f.name
        ∧ f.scale = entry.2.scale
        ∧ f.type = entry.2.type
        ∧ (∀ g, entry.2.palette = PaletteArg.callable g →
            f.palette = g entry.2.scale)
        ∧ (∀ p, entry.2.palette = PaletteArg.static p → f.palette = p) := by
  obtain ⟨entry, hmem, heq⟩ := List.mem_map.mp hf
  subst heq
  refine ⟨rfl, rfl, rfl, rfl, entry, hmem, rfl, rfl, rfl, ?_, ?_⟩
  · intro g hg
    simp [SpatialFeatures.mkFeature, resolve_palette, hg]
  · intro p hp
    simp [SpatialFeatures.mkFeature, resolve_palette, hp]

/-- Witness for the construction invariant at a concrete single-entry
keyword list. -/
theorem spatial_features_new_invariant_witness :
    SpatialFeatures.mkFeature
        ("creep", ⟨2, FeatureType.CATEGORICAL, PaletteArg.static [[0, 1, 2]]⟩) ∈
      SpatialFeatures.new
        [("creep", ⟨2, FeatureType.CATEGORICAL, PaletteArg.static [[0, 1, 2]]⟩)]
    ∧ ((SpatialFeatures.mkFeature
          ("creep", ⟨2, FeatureType.CATEGORICAL, PaletteArg.static [[0, 1, 2]]⟩)).layer_set =
        "minimap_renders"
      ∧ (SpatialFeatures.mkFeature
          ("creep", ⟨2, FeatureType.CATEGORICAL, PaletteArg.static [[0, 1, 2]]⟩)).full_name =
        "spatial " ++ (SpatialFeatures.mkFeature
          ("creep", ⟨2, FeatureType.CATEGORICAL, PaletteArg.static [[0, 1, 2]]⟩)).name
      ∧ (SpatialFeatures.mkFeature
          ("creep", ⟨2, FeatureType.CATEGORICAL, PaletteArg.static [[0, 1, 2]]⟩)).clip = false
      ∧ (SpatialFeatures.mkFeature
          ("creep", ⟨2, FeatureType.CATEGORICAL, PaletteArg.static [[0, 1, 2]]⟩)).index =
        SpatialFeatures.fields.indexOf (SpatialFeatures.mkFeature
          ("creep", ⟨2, FeatureType.CATEGORICAL, PaletteArg.static [[0, 1, 2]]⟩)).name
      ∧ ∃ entry ∈ [("creep",
            (⟨2, FeatureType.CATEGORICAL, PaletteArg.static [[0, 1, 2]]⟩ : LayerSpec))],
          entry.1 = (SpatialFeatures.mkFeature
            ("creep", ⟨2, FeatureType.CATEGORICAL, PaletteArg.static [[0, 1, 2]]⟩)).name
          ∧ (SpatialFeatures.mkFeature
              ("creep", ⟨2, FeatureType.CATEGORICAL, PaletteArg.static [[0, 1, 2]]⟩)).scale =
            entry.2.scale
          ∧ (SpatialFeatures.mkFeature
              ("creep", ⟨2, FeatureType.CATEGORICAL, PaletteArg.static [[0, 1, 2]]⟩)).type =
            entry.2.type
          ∧ (∀ g, entry.2.palette = PaletteArg.callable g →
              (SpatialFeatures.mkFeature
                ("creep", ⟨2, FeatureType.CATEGORICAL, PaletteArg.static [[0, 1, 2]]⟩)).palette =
              g entry.2.scale)
          ∧ (∀ p, entry.2.palette = PaletteArg.static p →
              (SpatialFeatures.mkFeature
                ("creep", ⟨2, FeatureType.CATEGORICAL, PaletteArg.static [[0, 1, 2]]⟩)).palette =
              p)) :=
  ⟨List.mem_cons_self _ _,
   spatial_features_new_invariant
     [("creep", ⟨2, FeatureType.CATEGORICAL, PaletteArg.static [[0, 1, 2]]⟩)]
     (SpatialFeatures.mkFeature
       ("creep", ⟨2, FeatureType.CATEGORICAL, PaletteArg.static [[0, 1, 2]]⟩))
     (List.mem_cons_self _ _)⟩

/-- Characterization of a run of the embedded ReplayParser loop on a
script whose transforms all succeed and that reaches a non-empty
player_result: the loop breaks at the first such observation, every
earlier iteration hands the agent a TimeStep with the incoming state
(then MID) and the parser's discount, and the final iteration hands it a
LAST TimeStep with discount 0.  st and agent_obs are generalized so the
statement is inductive. -/
theorem runLoop_broke_characterization (sm : Nat) (d : Rat)
    (script : List LoopObs) :
    ∀ (st : StepType) (prev : Option Nat),
    (∀ o ∈ script, o.transform_result ≠ none) →
    script.any (fun o => o.player_result) = true →
    ∃ body lastIt,
      ReplayParser.runLoop sm d st prev script = (body ++ [lastIt], LoopExit.broke)
      ∧ body.length = script.findIdx (fun o => o.player_result)
      ∧ lastIt = (⟨sm, StepType.LAST, 0, 0,
            ((script.getD body.length loopObs0).transform_result).getD 0,
            (script.getD body.length loopObs0).actions⟩ : IterOut)
      ∧ (script.getD body.length loopObs0).player_result = true
      ∧ ∀ j, j < body.length →
          body.getD j iterOut0 = (⟨sm, (if j = 0 then st else StepType.MID), 0, d,
              ((script.getD j loopObs0).transform_result).getD 0,
              (script.getD j loopObs0).actions⟩ : IterOut)
          ∧ (script.getD j loopObs0).player_result = false := by
  induction script with
  | nil => intro st prev hT hP; simp at hP
  | cons o rest ih =>
    intro st prev hT hP
    have ho : o.transform_result ≠ none := hT o (List.mem_cons_self o rest)
    cases hoc : o.transform_result with
    | none => exact absurd hoc ho
    | some a =>
      by_cases hp : o.player_result = true
      · refine ⟨[], ⟨sm, StepType.LAST, 0, 0, a, o.actions⟩, ?_, ?_, ?_, ?_, ?_⟩
        · simp [ReplayParser.runLoop, hoc, hp]
        · simp [List.findIdx_cons, hp]
        · simp [hoc]
        · simpa using hp
        · intro j hj; exact absurd hj (Nat.not_lt_zero j)
      · have hp' : o.player_result = false := by
          cases hpc : o.player_result
          · rfl
          · exact absurd hpc hp
        have hPrest : rest.any (fun o => o.player_result) = true := by
          simpa [hp'] using hP
        have hTrest : ∀ o2 ∈ rest, o2.transform_result ≠ none :=
          fun o2 h2 => hT o2 (List.mem_cons_of_mem o h2)
        obtain ⟨body, lastIt, h1, h2, h3, h4, h5⟩ :=
          ih StepType.MID (some a) hTrest hPrest
        refine ⟨(⟨sm, st, 0, d, a, o.actions⟩ : IterOut) :: body, lastIt,
          ?_, ?_, ?_, ?_, ?_⟩
        · simp [ReplayParser.runLoop, hoc, hp', h1]
        · simp [List.findIdx_cons, hp', h2]
        · simpa [List.getD_cons_succ] using h3
        · simpa [List.getD_cons_succ] using h4
        · intro j hj
          cases j with
          | zero =>
            refine ⟨?_, by simpa using hp'⟩
            simp [List.getD_cons_zero, hoc]
          | succ j' =>
            have hj' : j' < body.length := by
              simpa [Nat.succ_lt_succ_iff] using hj
            obtain ⟨hb, hpr⟩ := h5 j' hj'
            refine ⟨?_, by simpa [List.getD_cons_succ] using hpr⟩
            simp only [List.getD_cons_succ]
            rw [hb]
            simp

/-- C5: on any run of ReplayParser.start whose script of observations has
all transforms succeeding and eventually reports a player_result, each
iteration issues controller.step(step_mul), takes the next observation,
transforms it and hands agent.step a TimeStep built from it; the loop
terminates exactly at the first observation with a non-empty
player_result; that final TimeStep has step_type LAST and discount 0;
every earlier TimeStep has step_type FIRST (first iteration) or MID
(later ones) and the parser's discount; and no agent.step call occurs
after the LAST step (the LAST TimeStep is the final element of the
iteration trace). -/
theorem start_loop_step_sequence (sm : Nat) (d : Rat) (script : List LoopObs)
    (hT : ∀ o ∈ script, o.transform_result ≠ none)
    (hP : script.any (fun o => o.player_result) = true) :
    ∃ body lastIt,
      ReplayParser.start sm d script = (body ++ [lastIt], LoopExit.broke)
      ∧ body.length = script.findIdx (fun o => o.player_result)
      ∧ lastIt = (⟨sm, StepType.LAST, 0, 0,
            ((script.getD body.length loopObs0).transform_result).getD 0,
            (script.getD body.length loopObs0).actions⟩ : IterOut)
      ∧ (script.getD body.length loopObs0).player_result = true
      ∧ ∀ j, j < body.length →
          body.getD j iterOut0 = (⟨sm,
              (if j = 0 then StepType.FIRST else StepType.MID), 0, d,
              ((script.getD j loopObs0).transform_result).getD 0,
              (script.getD j loopObs0).actions⟩ : IterOut)
          ∧ (script.getD j loopObs0).player_result = false :=
  runLoop_broke_characterization sm d script StepType.FIRST none hT hP

/-- Witness for the loop-sequence theorem on a concrete two-observation
script (one running observation, then one carrying a player result),
with step_mul 4 and discount 1. -/
theorem start_loop_step_sequence_witness :
    (∀ o ∈ ([⟨false, some 5, [1, 2]⟩, ⟨true, some 7, []⟩] : List LoopObs),
        o.transform_result ≠ none)
    ∧ (([⟨false, some 5, [1, 2]⟩, ⟨true, some 7, []⟩] : List LoopObs).any
        (fun o => o.player_result) = true)
    ∧ ∃ body lastIt,
        ReplayParser.start 4 1 [⟨false, some 5, [1, 2]⟩, ⟨true, some 7, []⟩] =
          (body ++ [lastIt], LoopExit.broke)
        ∧ body.length =
            ([⟨false, some 5, [1, 2]⟩, ⟨true, some 7, []⟩] : List LoopObs).findIdx
              (fun o => o.player_result)
        ∧ lastIt = (⟨4, StepType.LAST, 0, 0,
              ((([⟨false, some 5, [1, 2]⟩, ⟨true, some 7, []⟩] : List LoopObs).getD
                  body.length loopObs0).transform_result).getD 0,
              (([⟨false, some 5, [1, 2]⟩, ⟨true, some 7, []⟩] : List LoopObs).getD
                  body.length loopObs0).actions⟩ : IterOut)
        ∧ (([⟨false, some 5, [1, 2]⟩, ⟨true, some 7, []⟩] : List LoopObs).getD
              body.length loopObs0).player_result = true
        ∧ ∀ j, j < body.length →
            body.getD j iterOut0 = (⟨4,
                (if j = 0 then StepType.FIRST else StepType.MID), 0, 1,
                ((([⟨false, some 5, [1, 2]⟩, ⟨true, some 7, []⟩] : List LoopObs).getD
                    j loopObs0).transform_result).getD 0,
                (([⟨false, some 5, [1, 2]⟩, ⟨true, some 7, []⟩] : List LoopObs).getD
                    j loopObs0).actions⟩ : IterOut)
            ∧ (([⟨false, some 5, [1, 2]⟩, ⟨true, some 7, []⟩] : List LoopObs).getD
                  j loopObs0).player_result = false :=
  ⟨by decide, by decide,
   start_loop_step_sequence 4 1 [⟨false, some 5, [1, 2]⟩, ⟨true, some 7, []⟩]
     (by decide) (by decide)⟩
